/-
Verification of the lead-agent-service core: CRM payload classification,
enrichment merge, dual scoring engine and dimension aggregation.

The Lean definitions below are a shallow embedding of the TypeScript
source.  JavaScript numbers are modelled as rationals (ℚ), with a
separate `JsNum` type carrying NaN where the mapper code can see it;
`Math.round` is floor(x + 1/2); absent (`undefined`/`null`) fields are
`Option`; JS objects (`Record<string, T>`) are association lists in
insertion order; string operations (`toLowerCase`, `includes`,
`split("@")`) are modelled over the ASCII strings the service handles.
-/
import Mathlib

/-! ## JavaScript string helpers -/

/-- Character-list test: `needle` is a prefix of `hay`. -/
def charsStartWith : List Char → List Char → Bool
  | _, [] => true
  | [], _ :: _ => false
  | a :: as, b :: bs => a == b && charsStartWith as bs

/-- Character-list test: `needle` occurs contiguously in `hay`. -/
def hasSub : List Char → List Char → Bool
  | [], needle => needle.isEmpty
  | c :: rest, needle => charsStartWith (c :: rest) needle || hasSub rest needle

/-- JavaScript `hay.includes(needle)` for strings. -/
def jsIncludes (hay needle : String) : Bool := hasSub hay.data needle.data

/-- Association-list lookup, first match wins (JS object key access). -/
def alistLookup {α : Type} : List (String × α) → String → Option α
  | [], _ => none
  | (k, v) :: rest, key => if k == key then some v else alistLookup rest key

/-- JavaScript `a ?? b` on optional values. -/
def jsNullish {α : Type} (a b : Option α) : Option α :=
  match a with
  | some v => some v
  | none => b

/-- String lower-casing as JS `toLowerCase` (per-character, ASCII). -/
def jsToLower (s : String) : String := String.mk (s.data.map Char.toLower)

/-- JS `String.prototype.split` on a one-character separator, over char lists. -/
def splitChars (sep : Char) : List Char → List (List Char)
  | [] => [[]]
  | c :: rest =>
    let r := splitChars sep rest
    if c == sep then [] :: r
    else
      match r with
      | h :: t => (c :: h) :: t
      | [] => [[c]]

/-- JS `s.split(sep)` for a one-character separator string. -/
def jsSplit (s : String) (sep : Char) : List String := (splitChars sep s.data).map String.mk

/-- `Math.round(s * w)` for an integer point value `s` and a weight `w`:
⌊s·w + 1/2⌋ computed on numerator and denominator so that it evaluates by
kernel reduction (JS `Math.round` rounds half toward +∞). -/
def weightedPoints (s : Int) (w : ℚ) : Int :=
  Int.fdiv (2 * s * w.num + (w.den : Int)) (2 * (w.den : Int))

/-- `Math.min(100, Math.round((s / m) * 100))`, the dimension normalization,
again computed by integer floor division. -/
def dimNorm (s m : Int) : Int := min 100 (Int.fdiv (200 * s + m) (2 * m))

/-! ## JavaScript numbers (for the mapper band functions) -/

/-- A JavaScript number: either NaN or an actual (rational) value. -/
inductive JsNum where
  | nan
  | val (q : ℚ)

/-- JS `n <= c`: false when `n` is NaN. -/
def jsNumLe (n : JsNum) (c : ℚ) : Bool :=
  match n with
  | .nan => false
  | .val q => q ≤ c

/-- JS `n < c`: false when `n` is NaN. -/
def jsNumLt (n : JsNum) (c : ℚ) : Bool :=
  match n with
  | .nan => false
  | .val q => q < c

/-- JS `isNaN(n)`. -/
def jsNumIsNaN (n : JsNum) : Bool :=
  match n with
  | .nan => true
  | .val _ => false

/-! ## Enumerated bands (types/universal.ts) -/

inductive EmployeeBand where
  | b1to10 | b11to50 | b51to200 | b201to1000 | b1000plus
  deriving DecidableEq, Repr

def EmployeeBand.toStr : EmployeeBand → String
  | .b1to10 => "1-10"
  | .b11to50 => "11-50"
  | .b51to200 => "51-200"
  | .b201to1000 => "201-1000"
  | .b1000plus => "1000+"

inductive RevenueBand where
  | lt1M | r1to10M | r10to50M | r50to250M | r250Mplus
  deriving DecidableEq, Repr

def RevenueBand.toStr : RevenueBand → String
  | .lt1M => "<1M"
  | .r1to10M => "1-10M"
  | .r10to50M => "10-50M"
  | .r50to250M => "50-250M"
  | .r250Mplus => "250M+"

inductive RoleFunction where
  | Sales | Marketing | RevOps | Ops | Finance | IT | FounderExec | Legal | Other
  deriving DecidableEq, Repr

inductive RoleSeniority where
  | IC | Manager | Director | VP | CLevel
  deriving DecidableEq, Repr

def RoleSeniority.toStr : RoleSeniority → String
  | .IC => "IC"
  | .Manager => "Manager"
  | .Director => "Director"
  | .VP => "VP"
  | .CLevel => "C-Level"

inductive DealBand where
  | Small | Mid | Enterprise
  deriving DecidableEq, Repr

def DealBand.toStr : DealBand → String
  | .Small => "Small"
  | .Mid => "Mid"
  | .Enterprise => "Enterprise"

inductive UrgencyBand where
  | Exploring | ThisQuarter | ThisMonth
  deriving DecidableEq, Repr

def UrgencyBand.toStr : UrgencyBand → String
  | .Exploring => "Exploring"
  | .ThisQuarter => "ThisQuarter"
  | .ThisMonth => "ThisMonth"

inductive LeadTier where
  | Hot | Warm | Cold
  deriving DecidableEq, Repr

/-- Scoring phase tag passed through computeScore. -/
inductive Phase where
  | raw | enriched
  deriving DecidableEq, Repr

/-! ## JSON-like payload values (for the payload classifier) -/

/-- A JSON-ish JavaScript value as seen by the CRM detectors. -/
inductive JVal where
  | str (s : String)
  | num (n : JsNum)
  | boolean (b : Bool)
  | null
  | arr (elems : List JVal)
  | obj (fields : List (String × JVal))

/-- An inbound payload: a JS object, i.e. key/value pairs. -/
def Payload := List (String × JVal)

/-- Payload field access; `none` models JS `undefined`. -/
def jget (p : Payload) (key : String) : Option JVal := alistLookup p key

/-- `typeof x === "string"` on an (optional) field. -/
def isStrVal : Option JVal → Bool
  | some (.str _) => true
  | _ => false

/-- `typeof x === "number"` on an (optional) field (NaN is a number). -/
def isNumVal : Option JVal → Bool
  | some (.num _) => true
  | _ => false

/-- `typeof x === "object"` on an (optional) field: objects, arrays and null. -/
def typeofIsObject : Option JVal → Bool
  | some (.obj _) => true
  | some (.arr _) => true
  | some .null => true
  | _ => false

/-- JS optional-chained property access `v?.k` (undefined off objects). -/
def jsProp : JVal → String → Option JVal
  | .obj fields, k => alistLookup fields k
  | _, _ => none

/-! ## Canonical lead record (types/universal.ts: UniversalLeadInput) -/

structure UniversalLeadInput where
  company_domain : String
  company_name : Option String := none
  company_industry : Option String := none
  company_employee_band : Option EmployeeBand := none
  company_revenue_band : Option RevenueBand := none
  company_region : Option String := none
  company_tech_stack_summary : Option (List (String × JVal)) := none
  contact_email : Option String := none
  contact_first_name : Option String := none
  contact_last_name : Option String := none
  contact_role_function : Option RoleFunction := none
  contact_role_seniority : Option RoleSeniority := none
  contact_title_raw : Option String := none
  contact_geo : Option String := none
  contact_phone : Option String := none
  primary_use_case : Option String := none
  estimated_deal_band : Option DealBand := none
  urgency_band : Option UrgencyBand := none
  lead_source : Option String := none

/-- `Partial<UniversalLeadInput>`: every field optional, as produced by
enrichment providers (services/enrichment.ts). -/
structure EnrichmentPartial where
  company_domain : Option String := none
  company_name : Option String := none
  company_industry : Option String := none
  company_employee_band : Option EmployeeBand := none
  company_revenue_band : Option RevenueBand := none
  company_region : Option String := none
  company_tech_stack_summary : Option (List (String × JVal)) := none
  contact_email : Option String := none
  contact_first_name : Option String := none
  contact_last_name : Option String := none
  contact_role_function : Option RoleFunction := none
  contact_role_seniority : Option RoleSeniority := none
  contact_title_raw : Option String := none
  contact_geo : Option String := none
  contact_phone : Option String := none
  primary_use_case : Option String := none
  estimated_deal_band : Option DealBand := none
  urgency_band : Option UrgencyBand := none
  lead_source : Option String := none

/-! ## Tenant configuration and weights -/

/-- Per-signal weight multipliers (merged `{...BASE_WEIGHTS, ...overrides}`). -/
structure Weights where
  email_domain : ℚ
  company_size : ℚ
  revenue : ℚ
  seniority : ℚ
  industry : ℚ
  lead_source : ℚ
  use_case : ℚ
  urgency : ℚ
  deal_band : ℚ

/-- scoring.ts BASE_WEIGHTS: all nine signal keys at 1.0. -/
def BASE_WEIGHTS : Weights :=
  { email_domain := 1, company_size := 1, revenue := 1, seniority := 1,
    industry := 1, lead_source := 1, use_case := 1, urgency := 1, deal_band := 1 }

/-- Tenant `weight_overrides`: a partial record over the nine signal keys. -/
structure WeightOverrides where
  email_domain : Option ℚ := none
  company_size : Option ℚ := none
  revenue : Option ℚ := none
  seniority : Option ℚ := none
  industry : Option ℚ := none
  lead_source : Option ℚ := none
  use_case : Option ℚ := none
  urgency : Option ℚ := none
  deal_band : Option ℚ := none

/-- JS spread merge `{ ...BASE_WEIGHTS, ...config.weight_overrides }`. -/
def mergeWeights (o : WeightOverrides) : Weights :=
  { email_domain := o.email_domain.getD BASE_WEIGHTS.email_domain,
    company_size := o.company_size.getD BASE_WEIGHTS.company_size,
    revenue := o.revenue.getD BASE_WEIGHTS.revenue,
    seniority := o.seniority.getD BASE_WEIGHTS.seniority,
    industry := o.industry.getD BASE_WEIGHTS.industry,
    lead_source := o.lead_source.getD BASE_WEIGHTS.lead_source,
    use_case := o.use_case.getD BASE_WEIGHTS.use_case,
    urgency := o.urgency.getD BASE_WEIGHTS.urgency,
    deal_band := o.deal_band.getD BASE_WEIGHTS.deal_band }

/-- TenantScoringConfig (the fields the scoring engine reads). -/
structure TenantScoringConfig where
  scoring_version : String
  weight_overrides : WeightOverrides
  priority_industries : List String
  excluded_regions : List String
  priority_use_cases : List String
  hot_threshold : ℚ
  warm_threshold : ℚ

/-- db/tenants getDefaultScoringConfig: v1, no overrides, empty lists, 70/40. -/
def getDefaultScoringConfig : TenantScoringConfig :=
  { scoring_version := "v1",
    weight_overrides := {},
    priority_industries := [],
    excluded_regions := [],
    priority_use_cases := [],
    hot_threshold := 70,
    warm_threshold := 40 }

def SCORING_VERSION : String := "v1"

/-! ## Static keyword tables (scoring.ts) -/

def FREE_EMAIL_DOMAINS : List String :=
  ["gmail.com", "yahoo.com", "outlook.com", "hotmail.com",
   "icloud.com", "aol.com", "proton.me", "protonmail.com",
   "live.com", "msn.com", "ymail.com"]

def HIGH_VALUE_INDUSTRIES : List String :=
  ["technology", "software", "finance", "healthcare", "saas",
   "fintech", "biotech", "ai", "machine learning"]

def MEDIUM_VALUE_INDUSTRIES : List String :=
  ["manufacturing", "retail", "consulting", "professional services",
   "media", "education", "real estate"]

def HIGH_QUALITY_SOURCES : List String :=
  ["referral", "partner", "event", "conference", "demo request", "inbound"]

def MEDIUM_QUALITY_SOURCES : List String :=
  ["website", "webinar", "content download", "organic", "seo"]

def CSUITE_KEYWORDS : List String :=
  ["ceo", "cto", "cfo", "coo", "cmo", "chief", "founder", "owner", "president"]

def VP_KEYWORDS : List String := ["vp", "vice president", "head of"]

def DIRECTOR_KEYWORDS : List String := ["director"]

def MANAGER_KEYWORDS : List String := ["manager", "lead", "senior"]

/-! ## Individual signal scorers (scoring.ts)

Each TypeScript scorer takes a mutable `reasons` array and a phase and
returns a number; reasons are only pushed in the enriched phase.  The
pure translation returns the score together with the list of reason
strings pushed by that call.
-/

def scoreEmailDomain (input : UniversalLeadInput) (phase : Phase) : Int × List String :=
  match input.contact_email with
  | none => (0, [])
  | some email =>
    if email == "" then (0, [])
    else
      let domain := (((jsSplit email '@')[1]?).map jsToLower).getD ""
      if domain == "" then (0, [])
      else if FREE_EMAIL_DOMAINS.contains domain then
        (0, if phase == Phase.enriched then ["Free email: " ++ domain ++ " (+0)"] else [])
      else
        (15, if phase == Phase.enriched then ["Corporate email: " ++ domain ++ " (+15)"] else [])

def employeeBandScore : EmployeeBand → Int
  | .b1to10 => 5
  | .b11to50 => 10
  | .b51to200 => 15
  | .b201to1000 => 20
  | .b1000plus => 25

def scoreCompanySize (input : UniversalLeadInput) (phase : Phase) : Int × List String :=
  match input.company_employee_band with
  | none => (0, [])
  | some band =>
    let score := employeeBandScore band
    (score,
      if score > 0 && phase == Phase.enriched then
        ["Company size: " ++ band.toStr ++ " employees (+" ++ toString score ++ ")"]
      else [])

def revenueBandScore : RevenueBand → Int
  | .lt1M => 5
  | .r1to10M => 10
  | .r10to50M => 15
  | .r50to250M => 20
  | .r250Mplus => 25

def scoreRevenue (input : UniversalLeadInput) (phase : Phase) : Int × List String :=
  match input.company_revenue_band with
  | none => (0, [])
  | some band =>
    let score := revenueBandScore band
    (score,
      if score > 0 && phase == Phase.enriched then
        ["Revenue: " ++ band.toStr ++ " (+" ++ toString score ++ ")"]
      else [])

def seniorityEnumScore : RoleSeniority → Int
  | .IC => 5
  | .Manager => 10
  | .Director => 15
  | .VP => 20
  | .CLevel => 30

def scoreSeniority (input : UniversalLeadInput) (phase : Phase) : Int × List String :=
  match input.contact_role_seniority with
  | some s =>
    let score := seniorityEnumScore s
    (score,
      if score > 0 && phase == Phase.enriched then
        ["Seniority: " ++ s.toStr ++ " (+" ++ toString score ++ ")"]
      else [])
  | none =>
    match input.contact_title_raw with
    | none => (0, [])
    | some title =>
      if title == "" then (0, [])
      else
        let titleLower := jsToLower title
        if CSUITE_KEYWORDS.any (fun k => jsIncludes titleLower k) then
          (30, if phase == Phase.enriched then ["Title: " ++ title ++ " → C-Level (+30)"] else [])
        else if VP_KEYWORDS.any (fun k => jsIncludes titleLower k) then
          (20, if phase == Phase.enriched then ["Title: " ++ title ++ " → VP (+20)"] else [])
        else if DIRECTOR_KEYWORDS.any (fun k => jsIncludes titleLower k) then
          (15, if phase == Phase.enriched then ["Title: " ++ title ++ " → Director (+15)"] else [])
        else if MANAGER_KEYWORDS.any (fun k => jsIncludes titleLower k) then
          (10, if phase == Phase.enriched then ["Title: " ++ title ++ " → Manager (+10)"] else [])
        else (0, [])

def scoreIndustry (input : UniversalLeadInput) (priorityIndustries : List String)
    (phase : Phase) : Int × List String :=
  match input.company_industry with
  | none => (0, [])
  | some ind =>
    if ind == "" then (0, [])
    else
      let industryLower := jsToLower ind
      if priorityIndustries.length > 0 &&
          priorityIndustries.any (fun p => jsIncludes industryLower (jsToLower p)) then
        (20, if phase == Phase.enriched then ["Priority industry: " ++ ind ++ " (+20)"] else [])
      else if HIGH_VALUE_INDUSTRIES.any (fun i => jsIncludes industryLower i) then
        (15, if phase == Phase.enriched then ["High-value industry: " ++ ind ++ " (+15)"] else [])
      else if MEDIUM_VALUE_INDUSTRIES.any (fun i => jsIncludes industryLower i) then
        (8, if phase == Phase.enriched then ["Industry: " ++ ind ++ " (+8)"] else [])
      else (0, [])

def scoreLeadSource (input : UniversalLeadInput) (phase : Phase) : Int × List String :=
  match input.lead_source with
  | none => (0, [])
  | some src =>
    if src == "" then (0, [])
    else
      let sourceLower := jsToLower src
      if HIGH_QUALITY_SOURCES.any (fun s => jsIncludes sourceLower s) then
        (15, if phase == Phase.enriched then ["Lead source: " ++ src ++ " (+15)"] else [])
      else if MEDIUM_QUALITY_SOURCES.any (fun s => jsIncludes sourceLower s) then
        (8, if phase == Phase.enriched then ["Lead source: " ++ src ++ " (+8)"] else [])
      else (0, [])

def scoreUseCase (input : UniversalLeadInput) (priorityUseCases : List String)
    (phase : Phase) : Int × List String :=
  match input.primary_use_case with
  | none => (0, [])
  | some uc =>
    if uc == "" then (0, [])
    else
      let useCaseLower := jsToLower uc
      if priorityUseCases.length > 0 &&
          priorityUseCases.any (fun p => jsIncludes useCaseLower (jsToLower p)) then
        (15, if phase == Phase.enriched then ["Priority use case: " ++ uc ++ " (+15)"] else [])
      else
        (5, if phase == Phase.enriched then ["Use case provided: " ++ uc ++ " (+5)"] else [])

def urgencyBandScore : UrgencyBand → Int
  | .Exploring => 5
  | .ThisQuarter => 10
  | .ThisMonth => 20

def scoreUrgency (input : UniversalLeadInput) (phase : Phase) : Int × List String :=
  match input.urgency_band with
  | none => (0, [])
  | some u =>
    let score := urgencyBandScore u
    (score,
      if score > 0 && phase == Phase.enriched then
        ["Urgency: " ++ u.toStr ++ " (+" ++ toString score ++ ")"]
      else [])

def dealBandScore : DealBand → Int
  | .Small => 5
  | .Mid => 10
  | .Enterprise => 15

def scoreDealBand (input : UniversalLeadInput) (phase : Phase) : Int × List String :=
  match input.estimated_deal_band with
  | none => (0, [])
  | some d =>
    let score := dealBandScore d
    (score,
      if score > 0 && phase == Phase.enriched then
        ["Deal size: " ++ d.toStr ++ " (+" ++ toString score ++ ")"]
      else [])

/-- JS truthy-or chain `input.company_region || input.contact_geo`:
an empty-string region falls through. -/
def regionOf (input : UniversalLeadInput) : Option String :=
  match input.company_region with
  | some s => if s == "" then input.contact_geo else some s
  | none => input.contact_geo

def scoreRegion (input : UniversalLeadInput) (excludedRegions : List String)
    (phase : Phase) : Int × List String :=
  if excludedRegions.isEmpty then (0, [])
  else
    match regionOf input with
    | none => (0, [])
    | some region =>
      if region == "" then (0, [])
      else
        let regionLower := jsToLower region
        if excludedRegions.any (fun er => jsIncludes regionLower (jsToLower er)) then
          (-20, if phase == Phase.enriched then ["Excluded region: " ++ region ++ " (-20)"] else [])
        else (0, [])

/-! ## computeScore (scoring.ts) -/

structure ScoreComputeResult where
  score : Int
  tier : LeadTier
  breakdown : List (String × Int)
  reasons : List String

def determineTier (score : Int) (hotThreshold warmThreshold : ℚ) : LeadTier :=
  if (score : ℚ) ≥ hotThreshold then .Hot
  else if (score : ℚ) ≥ warmThreshold then .Warm
  else .Cold

/-- One positive-signal block of computeScore:
`if (rawScore > 0) { breakdown[key] = weighted; totalScore += weighted }`. -/
def addPos (acc : List (String × Int) × Int) (key : String) (raw weighted : Int) :
    List (String × Int) × Int :=
  if raw > 0 then (acc.1 ++ [(key, weighted)], acc.2 + weighted) else acc

/-- The industry block uses `!== 0` instead of `> 0`. -/
def addNonzero (acc : List (String × Int) × Int) (key : String) (raw weighted : Int) :
    List (String × Int) × Int :=
  if raw ≠ 0 then (acc.1 ++ [(key, weighted)], acc.2 + weighted) else acc

/-- The region block records the unweighted penalty when it is negative. -/
def addNeg (acc : List (String × Int) × Int) (key : String) (raw : Int) :
    List (String × Int) × Int :=
  if raw < 0 then (acc.1 ++ [(key, raw)], acc.2 + raw) else acc

def computeScore (input : UniversalLeadInput) (config : TenantScoringConfig)
    (weights : Weights) (phase : Phase) : ScoreComputeResult :=
  let email := scoreEmailDomain input phase
  let acc1 := addPos ([], 0) "email_domain" email.1 (weightedPoints email.1 weights.email_domain)
  let size := scoreCompanySize input phase
  let acc2 := addPos acc1 "company_size" size.1 (weightedPoints size.1 weights.company_size)
  let rev := scoreRevenue input phase
  let acc3 := addPos acc2 "revenue" rev.1 (weightedPoints rev.1 weights.revenue)
  let sen := scoreSeniority input phase
  let acc4 := addPos acc3 "seniority" sen.1 (weightedPoints sen.1 weights.seniority)
  let ind := scoreIndustry input config.priority_industries phase
  let acc5 := addNonzero acc4 "industry" ind.1 (weightedPoints ind.1 weights.industry)
  let src := scoreLeadSource input phase
  let acc6 := addPos acc5 "lead_source" src.1 (weightedPoints src.1 weights.lead_source)
  let uc := scoreUseCase input config.priority_use_cases phase
  let acc7 := addPos acc6 "use_case" uc.1 (weightedPoints uc.1 weights.use_case)
  let urg := scoreUrgency input phase
  let acc8 := addPos acc7 "urgency" urg.1 (weightedPoints urg.1 weights.urgency)
  let deal := scoreDealBand input phase
  let acc9 := addPos acc8 "deal_band" deal.1 (weightedPoints deal.1 weights.deal_band)
  let region := scoreRegion input config.excluded_regions phase
  let acc10 := addNeg acc9 "region_penalty" region.1
  let finalScore := max 0 (min 100 acc10.2)
  { score := finalScore,
    tier := determineTier finalScore config.hot_threshold config.warm_threshold,
    breakdown := acc10.1,
    reasons := email.2 ++ size.2 ++ rev.2 ++ sen.2 ++ ind.2 ++ src.2 ++ uc.2 ++
      urg.2 ++ deal.2 ++ region.2 }

/-! ## Dimension aggregation (scoring.ts: computeDimensions) -/

inductive Dimension where
  | fit | intent | timing
  deriving DecidableEq, Repr

/-- Fixed signal-key → dimension mapping (DIMENSION_MAPPING constant). -/
def DIMENSION_MAPPING (key : String) : Option Dimension :=
  if key == "email_domain" || key == "company_size" || key == "revenue" ||
      key == "seniority" || key == "industry" || key == "region_penalty" then
    some .fit
  else if key == "lead_source" || key == "use_case" || key == "deal_band" then
    some .intent
  else if key == "urgency" then
    some .timing
  else none

structure DimSums where
  fit : Int
  intent : Int
  timing : Int

/-- One iteration of the `for (const [key, value] of Object.entries(breakdown))`
loop: only mapped keys with a positive value are added. -/
def dimStep (sums : DimSums) (entry : String × Int) : DimSums :=
  match DIMENSION_MAPPING entry.1 with
  | some .fit => if entry.2 > 0 then { sums with fit := sums.fit + entry.2 } else sums
  | some .intent => if entry.2 > 0 then { sums with intent := sums.intent + entry.2 } else sums
  | some .timing => if entry.2 > 0 then { sums with timing := sums.timing + entry.2 } else sums
  | none => sums

structure DimensionBreakdown where
  fit : Int
  intent : Int
  timing : Int
  deriving DecidableEq, Repr

def computeDimensions (breakdown : List (String × Int)) : DimensionBreakdown :=
  let sums := breakdown.foldl dimStep { fit := 0, intent := 0, timing := 0 }
  { fit := dimNorm sums.fit 95,
    intent := dimNorm sums.intent 35,
    timing := dimNorm sums.timing 20 }

/-! ## Dual scoring entry points (scoring.ts) -/

structure DualScoringInput where
  rawLead : UniversalLeadInput
  enrichedLead : UniversalLeadInput
  tenantConfig : Option TenantScoringConfig := none

structure ScoringResult where
  score : Int
  tier : LeadTier
  raw_score : Int
  raw_tier : LeadTier
  enriched_score : Int
  enriched_tier : LeadTier
  lift : Int
  scoring_version : String
  score_breakdown : List (String × Int)
  raw_breakdown : List (String × Int)
  dimensions : DimensionBreakdown
  reasons : List String

def scoreLeadDual (input : DualScoringInput) : ScoringResult :=
  let config := input.tenantConfig.getD getDefaultScoringConfig
  let weights := mergeWeights config.weight_overrides
  let rawResult := computeScore input.rawLead config weights Phase.raw
  let enrichedResult := computeScore input.enrichedLead config weights Phase.enriched
  let lift := enrichedResult.score - rawResult.score
  let dimensions := computeDimensions enrichedResult.breakdown
  { score := enrichedResult.score,
    tier := enrichedResult.tier,
    raw_score := rawResult.score,
    raw_tier := rawResult.tier,
    enriched_score := enrichedResult.score,
    enriched_tier := enrichedResult.tier,
    lift := lift,
    scoring_version := SCORING_VERSION,
    score_breakdown := enrichedResult.breakdown,
    raw_breakdown := rawResult.breakdown,
    dimensions := dimensions,
    reasons := enrichedResult.reasons }

/-- Legacy single-input entry point: the one record is both raw and enriched. -/
def scoreLead (input : UniversalLeadInput) (tenantConfig : Option TenantScoringConfig) :
    ScoringResult :=
  scoreLeadDual { rawLead := input, enrichedLead := input, tenantConfig := tenantConfig }

/-! ## Enrichment merge (services/enrichment.ts: mergeEnrichment) -/

def mergeEnrichment (original : UniversalLeadInput) (enriched : EnrichmentPartial) :
    UniversalLeadInput :=
  { company_domain := original.company_domain,
    company_name := jsNullish original.company_name enriched.company_name,
    company_industry := jsNullish original.company_industry enriched.company_industry,
    company_employee_band := jsNullish original.company_employee_band enriched.company_employee_band,
    company_revenue_band := jsNullish original.company_revenue_band enriched.company_revenue_band,
    company_region := jsNullish original.company_region enriched.company_region,
    company_tech_stack_summary :=
      jsNullish original.company_tech_stack_summary enriched.company_tech_stack_summary,
    contact_email := jsNullish original.contact_email enriched.contact_email,
    contact_first_name := jsNullish original.contact_first_name enriched.contact_first_name,
    contact_last_name := jsNullish original.contact_last_name enriched.contact_last_name,
    contact_role_function := jsNullish original.contact_role_function enriched.contact_role_function,
    contact_role_seniority :=
      jsNullish original.contact_role_seniority enriched.contact_role_seniority,
    contact_title_raw := jsNullish original.contact_title_raw enriched.contact_title_raw,
    contact_geo := jsNullish original.contact_geo enriched.contact_geo,
    contact_phone := jsNullish original.contact_phone enriched.contact_phone,
    primary_use_case := jsNullish original.primary_use_case enriched.primary_use_case,
    estimated_deal_band := jsNullish original.estimated_deal_band enriched.estimated_deal_band,
    urgency_band := jsNullish original.urgency_band enriched.urgency_band,
    lead_source := jsNullish original.lead_source enriched.lead_source }

/-! ## Mapper band conversions (mappers/salesforce.ts and the HubSpot mapper) -/

/-- salesforce.ts mapEmployeeCountToBand (no NaN guard; NaN fails every
comparison and falls through to the top band). -/
def mapEmployeeCountToBandSF : Option JsNum → Option EmployeeBand
  | none => none
  | some c =>
    if jsNumLe c 10 then some .b1to10
    else if jsNumLe c 50 then some .b11to50
    else if jsNumLe c 200 then some .b51to200
    else if jsNumLe c 1000 then some .b201to1000
    else some .b1000plus

/-- HubSpot mapper mapEmployeeCountToBand (guards isNaN). -/
def mapEmployeeCountToBandHS : Option JsNum → Option EmployeeBand
  | none => none
  | some c =>
    if jsNumIsNaN c then none
    else if jsNumLe c 10 then some .b1to10
    else if jsNumLe c 50 then some .b11to50
    else if jsNumLe c 200 then some .b51to200
    else if jsNumLe c 1000 then some .b201to1000
    else some .b1000plus

/-- salesforce.ts mapRevenueToBand (no NaN guard). -/
def mapRevenueToBandSF : Option JsNum → Option RevenueBand
  | none => none
  | some r =>
    if jsNumLt r 1000000 then some .lt1M
    else if jsNumLt r 10000000 then some .r1to10M
    else if jsNumLt r 50000000 then some .r10to50M
    else if jsNumLt r 250000000 then some .r50to250M
    else some .r250Mplus

/-- HubSpot mapper mapRevenueToBand (guards isNaN). -/
def mapRevenueToBandHS : Option JsNum → Option RevenueBand
  | none => none
  | some r =>
    if jsNumIsNaN r then none
    else if jsNumLt r 1000000 then some .lt1M
    else if jsNumLt r 10000000 then some .r1to10M
    else if jsNumLt r 50000000 then some .r10to50M
    else if jsNumLt r 250000000 then some .r50to250M
    else some .r250Mplus

/-- Spec-side band table (section 4.1 of the spec: employees ≤10, ≤50,
≤200, ≤1000, else top band) for comparison in the refinement theorem. -/
def employeeBandSpec (q : ℚ) : EmployeeBand :=
  if q ≤ 10 then .b1to10
  else if q ≤ 50 then .b11to50
  else if q ≤ 200 then .b51to200
  else if q ≤ 1000 then .b201to1000
  else .b1000plus

/-- Spec-side revenue band table (revenue <1M, <10M, <50M, <250M, else top). -/
def revenueBandSpec (q : ℚ) : RevenueBand :=
  if q < 1000000 then .lt1M
  else if q < 10000000 then .r1to10M
  else if q < 50000000 then .r10to50M
  else if q < 250000000 then .r50to250M
  else .r250Mplus

/-! ## Payload classification (db/scoringRuns.ts route file: detectAndMap) -/

inductive Source where
  | salesforce | hubspot | pipedrive | api
  deriving DecidableEq, Repr

/-- mappers/salesforce.ts isSalesforcePayload. -/
def isSalesforcePayload (p : Payload) : Bool :=
  isStrVal (jget p "LastName") ||
  isStrVal (jget p "Company") ||
  isNumVal (jget p "NumberOfEmployees") ||
  isNumVal (jget p "AnnualRevenue") ||
  (match jget p "Id" with
   | some (.str s) => s.length == 18
   | _ => false)

/-- HubSpot mapper isHubSpotPayload. -/
def isHubSpotPayload (p : Payload) : Bool :=
  isNumVal (jget p "vid") ||
  typeofIsObject (jget p "properties") ||
  isStrVal (jget p "firstname") ||
  isStrVal (jget p "lastname") ||
  isStrVal (jget p "jobtitle") ||
  isStrVal (jget p "lifecyclestage") ||
  isStrVal (jget p "hs_lead_status")

/-- `Array.isArray(x) && x[0]?.value !== undefined`. -/
def arrFirstValueDefined (v : Option JVal) : Bool :=
  match v with
  | some (.arr elems) =>
    match elems.head? with
    | some e => (jsProp e "value").isSome
    | none => false
  | _ => false

/-- mappers/pipedrive.ts isPipedrivePayload. -/
def isPipedrivePayload (p : Payload) : Bool :=
  isNumVal (jget p "person_id") ||
  isNumVal (jget p "org_id") ||
  (match jget p "org_id" with
   | some (.obj _) => true
   | some (.arr _) => true
   | _ => false) ||
  isStrVal (jget p "org_name") ||
  isNumVal (jget p "owner_id") ||
  arrFirstValueDefined (jget p "email") ||
  arrFirstValueDefined (jget p "phone")

/-- `payload._source === s` for a string constant `s`. -/
def hintIs (p : Payload) (s : String) : Bool :=
  match jget p "_source" with
  | some (.str t) => t == s
  | _ => false

/-- Source-selection logic of detectAndMap: which mapper runs and which
source tag is returned (each branch then calls that source's mapper). -/
def detectAndMapSource (p : Payload) : Source :=
  if hintIs p "salesforce" || isSalesforcePayload p then .salesforce
  else if hintIs p "hubspot" || isHubSpotPayload p then .hubspot
  else if hintIs p "pipedrive" || isPipedrivePayload p then .pipedrive
  else .api

/-! ## Breakdown lookup helper -/

/-- Lookup of a signal key in a breakdown map. -/
def bdLookup (breakdown : List (String × Int)) (key : String) : Option Int :=
  alistLookup breakdown key

/-- Sum of the recorded values of a breakdown map. -/
def bdSum (breakdown : List (String × Int)) : Int :=
  (breakdown.map Prod.snd).sum

/-- The unweighted score of each signal scorer, indexed by its breakdown key
(the phase argument is fixed to raw; scorer values are phase-independent). -/
def signalScore (input : UniversalLeadInput) (config : TenantScoringConfig)
    (key : String) : Int :=
  if key == "email_domain" then (scoreEmailDomain input Phase.raw).1
  else if key == "company_size" then (scoreCompanySize input Phase.raw).1
  else if key == "revenue" then (scoreRevenue input Phase.raw).1
  else if key == "seniority" then (scoreSeniority input Phase.raw).1
  else if key == "industry" then (scoreIndustry input config.priority_industries Phase.raw).1
  else if key == "lead_source" then (scoreLeadSource input Phase.raw).1
  else if key == "use_case" then (scoreUseCase input config.priority_use_cases Phase.raw).1
  else if key == "urgency" then (scoreUrgency input Phase.raw).1
  else if key == "deal_band" then (scoreDealBand input Phase.raw).1
  else if key == "region_penalty" then (scoreRegion input config.excluded_regions Phase.raw).1
  else 0

/-! ## Helper lemmas -/

lemma jsNullish_eq_ite {α : Type} (a b : Option α) :
    jsNullish a b = if a.isSome then a else b := by
  cases a <;> rfl

lemma fdiv_pos_eq_floor (a b : Int) (hb : 0 < b) :
    Int.fdiv a b = Int.floor ((a : ℚ) / (b : ℚ)) := by
  obtain ⟨n, rfl⟩ := Int.eq_ofNat_of_zero_le hb.le
  rw [Int.fdiv_eq_ediv _ hb.le, ← Rat.floor_intCast_div_natCast a n]
  norm_num

lemma weightedPoints_eq_floor (s : Int) (w : ℚ) :
    weightedPoints s w = Int.floor ((s : ℚ) * w + 1/2) := by
  unfold weightedPoints
  have hden : (0 : Int) < 2 * (w.den : Int) := by positivity
  rw [fdiv_pos_eq_floor _ _ hden]
  congr 1
  have hd : ((w.den : ℚ)) ≠ 0 := Nat.cast_ne_zero.mpr (Rat.den_ne_zero w)
  have hw : ((w.num : ℚ)) = w * (w.den : ℚ) := (div_eq_iff hd).mp (Rat.num_div_den w)
  push_cast
  rw [div_eq_iff (mul_ne_zero two_ne_zero hd), hw]
  ring

lemma weightedPoints_one (s : Int) : weightedPoints s 1 = s := by
  rw [weightedPoints_eq_floor]
  rw [mul_one, add_comm, Int.floor_add_int]
  norm_num

lemma dimNorm_eq_floor (s m : Int) (hm : 0 < m) :
    dimNorm s m = min 100 (Int.floor ((s : ℚ) / (m : ℚ) * 100 + 1/2)) := by
  unfold dimNorm
  have hden : (0 : Int) < 2 * m := by positivity
  rw [fdiv_pos_eq_floor _ _ hden]
  congr 2
  have hd : ((m : ℚ)) ≠ 0 := by exact_mod_cast hm.ne.symm
  push_cast
  rw [div_eq_iff (mul_ne_zero two_ne_zero hd)]
  field_simp
  ring

lemma bdSum_append_single (l : List (String × Int)) (k : String) (v : Int) :
    bdSum (l ++ [(k, v)]) = bdSum l + v := by
  simp [bdSum]

lemma addPos_sum (acc : List (String × Int) × Int) (k : String) (r w : Int)
    (h : bdSum acc.1 = acc.2) : bdSum (addPos acc k r w).1 = (addPos acc k r w).2 := by
  unfold addPos
  split
  · simpa [bdSum_append_single] using congrArg (· + w) h
  · exact h

lemma addNonzero_sum (acc : List (String × Int) × Int) (k : String) (r w : Int)
    (h : bdSum acc.1 = acc.2) : bdSum (addNonzero acc k r w).1 = (addNonzero acc k r w).2 := by
  unfold addNonzero
  split
  · simpa [bdSum_append_single] using congrArg (· + w) h
  · exact h

lemma addNeg_sum (acc : List (String × Int) × Int) (k : String) (r : Int)
    (h : bdSum acc.1 = acc.2) : bdSum (addNeg acc k r).1 = (addNeg acc k r).2 := by
  unfold addNeg
  split
  · simpa [bdSum_append_single] using congrArg (· + r) h
  · exact h

lemma addPos_mem (acc : List (String × Int) × Int) (k : String) (r w : Int)
    (p : String × Int) (hp : p ∈ (addPos acc k r w).1) :
    p ∈ acc.1 ∨ (0 < r ∧ p = (k, w)) := by
  unfold addPos at hp
  by_cases h : r > 0
  · rw [if_pos h] at hp
    rcases List.mem_append.mp hp with h1 | h1
    · exact Or.inl h1
    · exact Or.inr ⟨h, by simpa using h1⟩
  · rw [if_neg h] at hp
    exact Or.inl hp

lemma addNonzero_mem (acc : List (String × Int) × Int) (k : String) (r w : Int)
    (p : String × Int) (hp : p ∈ (addNonzero acc k r w).1) :
    p ∈ acc.1 ∨ (r ≠ 0 ∧ p = (k, w)) := by
  unfold addNonzero at hp
  by_cases h : r ≠ 0
  · rw [if_pos h] at hp
    rcases List.mem_append.mp hp with h1 | h1
    · exact Or.inl h1
    · exact Or.inr ⟨h, by simpa using h1⟩
  · rw [if_neg h] at hp
    exact Or.inl hp

lemma addNeg_mem (acc : List (String × Int) × Int) (k : String) (r : Int)
    (p : String × Int) (hp : p ∈ (addNeg acc k r).1) :
    p ∈ acc.1 ∨ (r < 0 ∧ p = (k, r)) := by
  unfold addNeg at hp
  by_cases h : r < 0
  · rw [if_pos h] at hp
    rcases List.mem_append.mp hp with h1 | h1
    · exact Or.inl h1
    · exact Or.inr ⟨h, by simpa using h1⟩
  · rw [if_neg h] at hp
    exact Or.inl hp

/-! ## Phase affects only reason strings, never scores -/

lemma scoreEmailDomain_fst (input : UniversalLeadInput) (p q : Phase) :
    (scoreEmailDomain input p).1 = (scoreEmailDomain input q).1 := by
  unfold scoreEmailDomain
  repeat' split <;> try rfl
  all_goals dsimp only
  all_goals split_ifs <;> rfl

lemma scoreCompanySize_fst (input : UniversalLeadInput) (p q : Phase) :
    (scoreCompanySize input p).1 = (scoreCompanySize input q).1 := by
  unfold scoreCompanySize
  repeat' split <;> try rfl

lemma scoreRevenue_fst (input : UniversalLeadInput) (p q : Phase) :
    (scoreRevenue input p).1 = (scoreRevenue input q).1 := by
  unfold scoreRevenue
  repeat' split <;> try rfl

lemma scoreSeniority_fst (input : UniversalLeadInput) (p q : Phase) :
    (scoreSeniority input p).1 = (scoreSeniority input q).1 := by
  unfold scoreSeniority
  repeat' split <;> try rfl
  all_goals dsimp only
  all_goals split_ifs <;> rfl

lemma scoreIndustry_fst (input : UniversalLeadInput) (pri : List String) (p q : Phase) :
    (scoreIndustry input pri p).1 = (scoreIndustry input pri q).1 := by
  unfold scoreIndustry
  repeat' split <;> try rfl
  all_goals dsimp only
  all_goals split_ifs <;> rfl

lemma scoreLeadSource_fst (input : UniversalLeadInput) (p q : Phase) :
    (scoreLeadSource input p).1 = (scoreLeadSource input q).1 := by
  unfold scoreLeadSource
  repeat' split <;> try rfl
  all_goals dsimp only
  all_goals split_ifs <;> rfl

lemma scoreUseCase_fst (input : UniversalLeadInput) (pri : List String) (p q : Phase) :
    (scoreUseCase input pri p).1 = (scoreUseCase input pri q).1 := by
  unfold scoreUseCase
  repeat' split <;> try rfl
  all_goals dsimp only
  all_goals split_ifs <;> rfl

lemma scoreUrgency_fst (input : UniversalLeadInput) (p q : Phase) :
    (scoreUrgency input p).1 = (scoreUrgency input q).1 := by
  unfold scoreUrgency
  repeat' split <;> try rfl

lemma scoreDealBand_fst (input : UniversalLeadInput) (p q : Phase) :
    (scoreDealBand input p).1 = (scoreDealBand input q).1 := by
  unfold scoreDealBand
  repeat' split <;> try rfl

lemma scoreRegion_fst (input : UniversalLeadInput) (ex : List String) (p q : Phase) :
    (scoreRegion input ex p).1 = (scoreRegion input ex q).1 := by
  unfold scoreRegion
  repeat' split <;> try rfl
  all_goals dsimp only
  all_goals split_ifs <;> rfl

lemma computeScore_phase_eq (input : UniversalLeadInput) (config : TenantScoringConfig)
    (weights : Weights) :
    (computeScore input config weights Phase.raw).score =
      (computeScore input config weights Phase.enriched).score ∧
    (computeScore input config weights Phase.raw).tier =
      (computeScore input config weights Phase.enriched).tier ∧
    (computeScore input config weights Phase.raw).breakdown =
      (computeScore input config weights Phase.enriched).breakdown := by
  unfold computeScore
  dsimp only
  rw [scoreEmailDomain_fst input Phase.raw Phase.enriched,
      scoreCompanySize_fst input Phase.raw Phase.enriched,
      scoreRevenue_fst input Phase.raw Phase.enriched,
      scoreSeniority_fst input Phase.raw Phase.enriched,
      scoreIndustry_fst input config.priority_industries Phase.raw Phase.enriched,
      scoreLeadSource_fst input Phase.raw Phase.enriched,
      scoreUseCase_fst input config.priority_use_cases Phase.raw Phase.enriched,
      scoreUrgency_fst input Phase.raw Phase.enriched,
      scoreDealBand_fst input Phase.raw Phase.enriched,
      scoreRegion_fst input config.excluded_regions Phase.raw Phase.enriched]
  exact ⟨rfl, rfl, rfl⟩

lemma computeScore_score_bounds (input : UniversalLeadInput) (config : TenantScoringConfig)
    (weights : Weights) (phase : Phase) :
    0 ≤ (computeScore input config weights phase).score ∧
      (computeScore input config weights phase).score ≤ 100 := by
  unfold computeScore
  dsimp only
  constructor
  · exact le_max_left 0 _
  · exact max_le (by norm_num) (min_le_left 100 _)

/-- Claim C1: for every pair of input records and every tenant config, the
scoring engine returns raw and enriched scores in [0, 100], and the returned
lift equals enriched_score − raw_score exactly. -/
theorem scoreLeadDual_bounds_and_lift (input : DualScoringInput) :
    0 ≤ (scoreLeadDual input).raw_score ∧ (scoreLeadDual input).raw_score ≤ 100 ∧
    0 ≤ (scoreLeadDual input).enriched_score ∧ (scoreLeadDual input).enriched_score ≤ 100 ∧
    (scoreLeadDual input).lift =
      (scoreLeadDual input).enriched_score - (scoreLeadDual input).raw_score := by
  unfold scoreLeadDual
  dsimp only
  obtain ⟨h1, h2⟩ := computeScore_score_bounds input.rawLead
    (input.tenantConfig.getD getDefaultScoringConfig)
    (mergeWeights (input.tenantConfig.getD getDefaultScoringConfig).weight_overrides) Phase.raw
  obtain ⟨h3, h4⟩ := computeScore_score_bounds input.enrichedLead
    (input.tenantConfig.getD getDefaultScoringConfig)
    (mergeWeights (input.tenantConfig.getD getDefaultScoringConfig).weight_overrides)
    Phase.enriched
  exact ⟨h1, h2, h3, h4, rfl⟩

/-- Claim C9: for every input record, config, weight map and phase, the score
returned by computeScore equals clamp(S, 0, 100) where S is exactly the sum of
the values of the breakdown map returned alongside it. -/
theorem computeScore_breakdown_accounts (input : UniversalLeadInput)
    (config : TenantScoringConfig) (weights : Weights) (phase : Phase) :
    (computeScore input config weights phase).score =
      max 0 (min 100 (bdSum (computeScore input config weights phase).breakdown)) := by
  unfold computeScore
  dsimp only
  rw [addNeg_sum _ _ _ (addPos_sum _ _ _ _ (addPos_sum _ _ _ _ (addPos_sum _ _ _ _
    (addPos_sum _ _ _ _ (addNonzero_sum _ _ _ _ (addPos_sum _ _ _ _ (addPos_sum _ _ _ _
    (addPos_sum _ _ _ _ (addPos_sum _ _ _ _ rfl))))))))) ]

/-- Claim C8: with rawLead = enrichedLead = x the dual scorer yields equal raw
and enriched scores and tiers and lift 0, and the legacy scoreLead entry point
equals scoreLeadDual applied with x as both records. -/
theorem scoreLeadDual_identical_records (x : UniversalLeadInput)
    (cfg : Option TenantScoringConfig) :
    (scoreLeadDual { rawLead := x, enrichedLead := x, tenantConfig := cfg }).raw_score =
      (scoreLeadDual { rawLead := x, enrichedLead := x, tenantConfig := cfg }).enriched_score ∧
    (scoreLeadDual { rawLead := x, enrichedLead := x, tenantConfig := cfg }).raw_tier =
      (scoreLeadDual { rawLead := x, enrichedLead := x, tenantConfig := cfg }).enriched_tier ∧
    (scoreLeadDual { rawLead := x, enrichedLead := x, tenantConfig := cfg }).lift = 0 ∧
    scoreLead x cfg = scoreLeadDual { rawLead := x, enrichedLead := x, tenantConfig := cfg } := by
  obtain ⟨hs, ht, _⟩ := computeScore_phase_eq x (cfg.getD getDefaultScoringConfig)
    (mergeWeights (cfg.getD getDefaultScoringConfig).weight_overrides)
  unfold scoreLeadDual
  dsimp only
  refine ⟨hs, ht, ?_, rfl⟩
  rw [hs]
  exact sub_self _

/-- Claim C4: mergeEnrichment keeps each original field whenever it is present
and takes the enrichment-provided value otherwise, and company_domain always
equals the original's domain regardless of the enrichment partial. -/
theorem mergeEnrichment_fills_gaps_only (o : UniversalLeadInput) (e : EnrichmentPartial) :
    (mergeEnrichment o e).company_domain = o.company_domain ∧
    (mergeEnrichment o e).company_name =
      (if o.company_name.isSome then o.company_name else e.company_name) ∧
    (mergeEnrichment o e).company_industry =
      (if o.company_industry.isSome then o.company_industry else e.company_industry) ∧
    (mergeEnrichment o e).company_employee_band =
      (if o.company_employee_band.isSome then o.company_employee_band
       else e.company_employee_band) ∧
    (mergeEnrichment o e).company_revenue_band =
      (if o.company_revenue_band.isSome then o.company_revenue_band
       else e.company_revenue_band) ∧
    (mergeEnrichment o e).company_region =
      (if o.company_region.isSome then o.company_region else e.company_region) ∧
    (mergeEnrichment o e).company_tech_stack_summary =
      (if o.company_tech_stack_summary.isSome then o.company_tech_stack_summary
       else e.company_tech_stack_summary) ∧
    (mergeEnrichment o e).contact_email =
      (if o.contact_email.isSome then o.contact_email else e.contact_email) ∧
    (mergeEnrichment o e).contact_first_name =
      (if o.contact_first_name.isSome then o.contact_first_name else e.contact_first_name) ∧
    (mergeEnrichment o e).contact_last_name =
      (if o.contact_last_name.isSome then o.contact_last_name else e.contact_last_name) ∧
    (mergeEnrichment o e).contact_role_function =
      (if o.contact_role_function.isSome then o.contact_role_function
       else e.contact_role_function) ∧
    (mergeEnrichment o e).contact_role_seniority =
      (if o.contact_role_seniority.isSome then o.contact_role_seniority
       else e.contact_role_seniority) ∧
    (mergeEnrichment o e).contact_title_raw =
      (if o.contact_title_raw.isSome then o.contact_title_raw else e.contact_title_raw) ∧
    (mergeEnrichment o e).contact_geo =
      (if o.contact_geo.isSome then o.contact_geo else e.contact_geo) ∧
    (mergeEnrichment o e).contact_phone =
      (if o.contact_phone.isSome then o.contact_phone else e.contact_phone) ∧
    (mergeEnrichment o e).primary_use_case =
      (if o.primary_use_case.isSome then o.primary_use_case else e.primary_use_case) ∧
    (mergeEnrichment o e).estimated_deal_band =
      (if o.estimated_deal_band.isSome then o.estimated_deal_band
       else e.estimated_deal_band) ∧
    (mergeEnrichment o e).urgency_band =
      (if o.urgency_band.isSome then o.urgency_band else e.urgency_band) ∧
    (mergeEnrichment o e).lead_source =
      (if o.lead_source.isSome then o.lead_source else e.lead_source) :=
  ⟨rfl, jsNullish_eq_ite _ _, jsNullish_eq_ite _ _, jsNullish_eq_ite _ _,
   jsNullish_eq_ite _ _, jsNullish_eq_ite _ _, jsNullish_eq_ite _ _, jsNullish_eq_ite _ _,
   jsNullish_eq_ite _ _, jsNullish_eq_ite _ _, jsNullish_eq_ite _ _, jsNullish_eq_ite _ _,
   jsNullish_eq_ite _ _, jsNullish_eq_ite _ _, jsNullish_eq_ite _ _, jsNullish_eq_ite _ _,
   jsNullish_eq_ite _ _, jsNullish_eq_ite _ _, jsNullish_eq_ite _ _⟩

/-- Claim C10: a gap-filling enrichment can lower the score: with the default
config, filling an absent contact_role_seniority with IC (5 points) makes the
seniority scorer ignore the Founder title (30 points) present in both records,
so lift is negative (here raw 30, enriched 5, lift −25). -/
theorem enrichment_can_lower_score :
    (scoreLeadDual
      { rawLead := { company_domain := "acme.com", contact_title_raw := some "Founder" },
        enrichedLead := mergeEnrichment
          { company_domain := "acme.com", contact_title_raw := some "Founder" }
          { contact_role_seniority := some RoleSeniority.IC },
        tenantConfig := none }).raw_score = 30 ∧
    (scoreLeadDual
      { rawLead := { company_domain := "acme.com", contact_title_raw := some "Founder" },
        enrichedLead := mergeEnrichment
          { company_domain := "acme.com", contact_title_raw := some "Founder" }
          { contact_role_seniority := some RoleSeniority.IC },
        tenantConfig := none }).enriched_score = 5 ∧
    (scoreLeadDual
      { rawLead := { company_domain := "acme.com", contact_title_raw := some "Founder" },
        enrichedLead := mergeEnrichment
          { company_domain := "acme.com", contact_title_raw := some "Founder" }
          { contact_role_seniority := some RoleSeniority.IC },
        tenantConfig := none }).lift < 0 := by
  refine ⟨?_, ?_, ?_⟩ <;> decide

lemma hintIs_unique (p : Payload) (a b : String) (ha : hintIs p a = true) (hab : a ≠ b) :
    hintIs p b = false := by
  unfold hintIs at *
  revert ha
  cases jget p "_source" with
  | none => intro ha; simp at ha
  | some v => cases v <;> intro ha <;> simp_all

/-- Claim C2 (counterexample): a payload carrying the explicit hint
`_source = "hubspot"` but shaped like a Salesforce record (string `LastName`)
is classified as salesforce — the hint does not take priority over the
Salesforce detector. -/
theorem detectAndMap_hint_loses_to_detector :
    hintIs [("_source", JVal.str "hubspot"), ("LastName", JVal.str "Doe")] "hubspot" = true ∧
    detectAndMapSource [("_source", JVal.str "hubspot"), ("LastName", JVal.str "Doe")] =
      Source.salesforce := by
  constructor <;> decide

/-- Claim C2 (amended): the hint is checked inside the same ordered
salesforce → hubspot → pipedrive cascade as the detectors, so a salesforce
hint always wins, a hubspot hint wins only if the Salesforce detector does
not match, and a pipedrive hint wins only if neither the Salesforce nor the
HubSpot detector matches. -/
theorem detectAndMap_hint_in_cascade (p : Payload) :
    (hintIs p "salesforce" = true → detectAndMapSource p = Source.salesforce) ∧
    (hintIs p "hubspot" = true → isSalesforcePayload p = false →
      detectAndMapSource p = Source.hubspot) ∧
    (hintIs p "pipedrive" = true → isSalesforcePayload p = false →
      isHubSpotPayload p = false → detectAndMapSource p = Source.pipedrive) := by
  refine ⟨?_, ?_, ?_⟩
  · intro h
    unfold detectAndMapSource
    simp [h]
  · intro h hsf
    have h1 : hintIs p "salesforce" = false := hintIs_unique p "hubspot" "salesforce" h (by decide)
    unfold detectAndMapSource
    simp [h, h1, hsf]
  · intro h hsf hhs
    have h1 : hintIs p "salesforce" = false := hintIs_unique p "pipedrive" "salesforce" h (by decide)
    have h2 : hintIs p "hubspot" = false := hintIs_unique p "pipedrive" "hubspot" h (by decide)
    unfold detectAndMapSource
    simp [h, h1, h2, hsf, hhs]

/-- Claim C2 (amended, witness): concrete payloads exercising each branch of
the amended hint rule. -/
theorem detectAndMap_hint_in_cascade_witness :
    detectAndMapSource [("_source", JVal.str "salesforce")] = Source.salesforce ∧
    detectAndMapSource [("_source", JVal.str "hubspot")] = Source.hubspot ∧
    detectAndMapSource [("_source", JVal.str "pipedrive")] = Source.pipedrive :=
  ⟨(detectAndMap_hint_in_cascade _).1 (by decide),
   (detectAndMap_hint_in_cascade _).2.1 (by decide) (by decide),
   (detectAndMap_hint_in_cascade _).2.2 (by decide) (by decide) (by decide)⟩

/-- Claim C6 (counterexample): a breakdown containing region_penalty = −20
yields exactly the same dimensions as the same breakdown without that entry,
and on its own yields fit = 0 — the −20 is never included in the Fit sum, so
a triggered region penalty does not lower the Fit dimension. -/
theorem computeDimensions_penalty_not_included :
    computeDimensions [("email_domain", 15), ("region_penalty", -20)] =
      computeDimensions [("email_domain", 15)] ∧
    (computeDimensions [("region_penalty", -20)]).fit = 0 := by
  constructor <;> decide

/-- Claim C6 (amended): region_penalty is mapped to the Fit dimension in
DIMENSION_MAPPING, but computeDimensions only sums entries with positive
values, so a region_penalty entry of −20 contributes nothing: the dimensions
are identical with and without it. -/
theorem computeDimensions_penalty_dropped (bd : List (String × Int)) :
    DIMENSION_MAPPING "region_penalty" = some Dimension.fit ∧
    computeDimensions (("region_penalty", -20) :: bd) = computeDimensions bd := by
  constructor
  · decide
  · unfold computeDimensions
    rw [List.foldl_cons,
      show dimStep { fit := 0, intent := 0, timing := 0 } ("region_penalty", -20) =
        { fit := 0, intent := 0, timing := 0 } from rfl]

/-- Claim C7 (counterexample): the Salesforce mapper's band conversions have
no NaN guard, so a NaN employee count maps to the top band "1000+" and a NaN
revenue maps to "250M+" instead of an undefined band. -/
theorem salesforce_band_nan_top :
    mapEmployeeCountToBandSF (some JsNum.nan) = some EmployeeBand.b1000plus ∧
    mapRevenueToBandSF (some JsNum.nan) = some RevenueBand.r250Mplus := by
  constructor <;> decide

/-- Claim C7 (amended): undefined input yields an undefined band in both
mappers and NaN yields an undefined band in the HubSpot mapper, but in the
Salesforce mapper NaN falls through every comparison to the top band; defined
numbers follow the fixed breakpoints (≤10, ≤50, ≤200, ≤1000, else top band;
revenue <1M, <10M, <50M, <250M, else top band) in both mappers. -/
theorem band_conversions (q : ℚ) :
    mapEmployeeCountToBandSF none = none ∧
    mapEmployeeCountToBandHS none = none ∧
    mapEmployeeCountToBandHS (some JsNum.nan) = none ∧
    mapRevenueToBandSF none = none ∧
    mapRevenueToBandHS none = none ∧
    mapRevenueToBandHS (some JsNum.nan) = none ∧
    mapEmployeeCountToBandSF (some JsNum.nan) = some EmployeeBand.b1000plus ∧
    mapRevenueToBandSF (some JsNum.nan) = some RevenueBand.r250Mplus ∧
    mapEmployeeCountToBandSF (some (JsNum.val q)) = some (employeeBandSpec q) ∧
    mapEmployeeCountToBandHS (some (JsNum.val q)) = some (employeeBandSpec q) ∧
    mapRevenueToBandSF (some (JsNum.val q)) = some (revenueBandSpec q) ∧
    mapRevenueToBandHS (some (JsNum.val q)) = some (revenueBandSpec q) := by
  refine ⟨rfl, rfl, rfl, rfl, rfl, rfl, rfl, rfl, ?_, ?_, ?_, ?_⟩ <;>
    simp only [mapEmployeeCountToBandSF, mapEmployeeCountToBandHS, mapRevenueToBandSF,
      mapRevenueToBandHS, employeeBandSpec, revenueBandSpec, jsNumLe, jsNumLt, jsNumIsNaN,
      Bool.false_eq_true, if_false, decide_eq_true_eq] <;>
    split_ifs <;> rfl

lemma bdLookup_append_of_fresh (l : List (String × Int)) (k : String) (v : Int)
    (h : ∀ q ∈ l, q.1 ≠ k) : bdLookup (l ++ [(k, v)]) k = some v := by
  induction l with
  | nil => simp [bdLookup, alistLookup]
  | cons hd tl ih =>
    obtain ⟨k1, v1⟩ := hd
    have h1 : ¬(k1 == k) = true := by
      simpa using h (k1, v1) (List.mem_cons_self (k1, v1) tl)
    simp only [List.cons_append, bdLookup, alistLookup]
    rw [if_neg h1]
    exact ih fun q hq => h q (List.mem_cons_of_mem _ hq)

/-- Claim C3 (counterexample): with a tenant weight override of 0 on
email_domain, a corporate email still passes the `emailScore > 0` guard, and
the recorded weighted value 0 appears in the breakdown: an entry with value 0
does appear in score_breakdown. -/
theorem breakdown_zero_entry_exists :
    bdLookup (scoreLeadDual
      { rawLead := { company_domain := "b.com", contact_email := some "a@b.com" },
        enrichedLead := { company_domain := "b.com", contact_email := some "a@b.com" },
        tenantConfig := some { getDefaultScoringConfig with
          weight_overrides := { email_domain := some 0 } } }).score_breakdown
      "email_domain" = some 0 := by
  decide

/-- Claim C3 (amended): the breakdown contains entries only for signals whose
unweighted score is non-zero (the guards test the unweighted score), and when
no weight override is in effect (all weights 1) every recorded value is also
non-zero; but a weight override can scale a recorded value down to 0. -/
theorem breakdown_entries_unweighted_nonzero (input : UniversalLeadInput)
    (config : TenantScoringConfig) (weights : Weights) (phase : Phase) :
    (∀ q ∈ (computeScore input config weights phase).breakdown,
      signalScore input config q.1 ≠ 0) ∧
    (weights = BASE_WEIGHTS →
      ∀ q ∈ (computeScore input config weights phase).breakdown, q.2 ≠ 0) := by
  constructor
  · intro q hq
    unfold computeScore at hq
    dsimp only at hq
    rcases addNeg_mem _ _ _ _ hq with hq | ⟨hneg, rfl⟩
    rotate_left
    · have hk : signalScore input config "region_penalty" = (scoreRegion input config.excluded_regions Phase.raw).1 := rfl
      dsimp only
      rw [hk, scoreRegion_fst input config.excluded_regions Phase.raw phase]
      omega
    rcases addPos_mem _ _ _ _ _ hq with hq | ⟨hpos, rfl⟩
    rotate_left
    · have hk : signalScore input config "deal_band" = (scoreDealBand input Phase.raw).1 := rfl
      dsimp only
      rw [hk, scoreDealBand_fst input Phase.raw phase]
      omega
    rcases addPos_mem _ _ _ _ _ hq with hq | ⟨hpos, rfl⟩
    rotate_left
    · have hk : signalScore input config "urgency" = (scoreUrgency input Phase.raw).1 := rfl
      dsimp only
      rw [hk, scoreUrgency_fst input Phase.raw phase]
      omega
    rcases addPos_mem _ _ _ _ _ hq with hq | ⟨hpos, rfl⟩
    rotate_left
    · have hk : signalScore input config "use_case" = (scoreUseCase input config.priority_use_cases Phase.raw).1 := rfl
      dsimp only
      rw [hk, scoreUseCase_fst input config.priority_use_cases Phase.raw phase]
      omega
    rcases addPos_mem _ _ _ _ _ hq with hq | ⟨hpos, rfl⟩
    rotate_left
    · have hk : signalScore input config "lead_source" = (scoreLeadSource input Phase.raw).1 := rfl
      dsimp only
      rw [hk, scoreLeadSource_fst input Phase.raw phase]
      omega
    rcases addNonzero_mem _ _ _ _ _ hq with hq | ⟨hnz, rfl⟩
    rotate_left
    · have hk : signalScore input config "industry" = (scoreIndustry input config.priority_industries Phase.raw).1 := rfl
      dsimp only
      rw [hk, scoreIndustry_fst input config.priority_industries Phase.raw phase]
      omega
    rcases addPos_mem _ _ _ _ _ hq with hq | ⟨hpos, rfl⟩
    rotate_left
    · have hk : signalScore input config "seniority" = (scoreSeniority input Phase.raw).1 := rfl
      dsimp only
      rw [hk, scoreSeniority_fst input Phase.raw phase]
      omega
    rcases addPos_mem _ _ _ _ _ hq with hq | ⟨hpos, rfl⟩
    rotate_left
    · have hk : signalScore input config "revenue" = (scoreRevenue input Phase.raw).1 := rfl
      dsimp only
      rw [hk, scoreRevenue_fst input Phase.raw phase]
      omega
    rcases addPos_mem _ _ _ _ _ hq with hq | ⟨hpos, rfl⟩
    rotate_left
    · have hk : signalScore input config "company_size" = (scoreCompanySize input Phase.raw).1 := rfl
      dsimp only
      rw [hk, scoreCompanySize_fst input Phase.raw phase]
      omega
    rcases addPos_mem _ _ _ _ _ hq with hq | ⟨hpos, rfl⟩
    rotate_left
    · have hk : signalScore input config "email_domain" = (scoreEmailDomain input Phase.raw).1 := rfl
      dsimp only
      rw [hk, scoreEmailDomain_fst input Phase.raw phase]
      omega
    simp at hq
  · intro hw q hq
    subst hw
    unfold computeScore at hq
    dsimp only at hq
    rcases addNeg_mem _ _ _ _ hq with hq | ⟨hneg, rfl⟩
    rotate_left
    · dsimp only
      omega
    rcases addPos_mem _ _ _ _ _ hq with hq | ⟨hpos, rfl⟩
    rotate_left
    · dsimp only
      rw [show BASE_WEIGHTS.deal_band = 1 from rfl, weightedPoints_one]
      omega
    rcases addPos_mem _ _ _ _ _ hq with hq | ⟨hpos, rfl⟩
    rotate_left
    · dsimp only
      rw [show BASE_WEIGHTS.urgency = 1 from rfl, weightedPoints_one]
      omega
    rcases addPos_mem _ _ _ _ _ hq with hq | ⟨hpos, rfl⟩
    rotate_left
    · dsimp only
      rw [show BASE_WEIGHTS.use_case = 1 from rfl, weightedPoints_one]
      omega
    rcases addPos_mem _ _ _ _ _ hq with hq | ⟨hpos, rfl⟩
    rotate_left
    · dsimp only
      rw [show BASE_WEIGHTS.lead_source = 1 from rfl, weightedPoints_one]
      omega
    rcases addNonzero_mem _ _ _ _ _ hq with hq | ⟨hnz, rfl⟩
    rotate_left
    · dsimp only
      rw [show BASE_WEIGHTS.industry = 1 from rfl, weightedPoints_one]
      omega
    rcases addPos_mem _ _ _ _ _ hq with hq | ⟨hpos, rfl⟩
    rotate_left
    · dsimp only
      rw [show BASE_WEIGHTS.seniority = 1 from rfl, weightedPoints_one]
      omega
    rcases addPos_mem _ _ _ _ _ hq with hq | ⟨hpos, rfl⟩
    rotate_left
    · dsimp only
      rw [show BASE_WEIGHTS.revenue = 1 from rfl, weightedPoints_one]
      omega
    rcases addPos_mem _ _ _ _ _ hq with hq | ⟨hpos, rfl⟩
    rotate_left
    · dsimp only
      rw [show BASE_WEIGHTS.company_size = 1 from rfl, weightedPoints_one]
      omega
    rcases addPos_mem _ _ _ _ _ hq with hq | ⟨hpos, rfl⟩
    rotate_left
    · dsimp only
      rw [show BASE_WEIGHTS.email_domain = 1 from rfl, weightedPoints_one]
      omega
    simp at hq

/-- Claim C3 (amended, witness): on a concrete record with a corporate email
and no overrides, the email_domain entry has non-zero unweighted score and a
non-zero recorded value. -/
theorem breakdown_entries_unweighted_nonzero_witness :
    signalScore { company_domain := "b.com", contact_email := some "a@b.com" }
      getDefaultScoringConfig "email_domain" ≠ 0 ∧
    (("email_domain", (15 : Int)) : String × Int).2 ≠ 0 :=
  ⟨(breakdown_entries_unweighted_nonzero
      { company_domain := "b.com", contact_email := some "a@b.com" }
      getDefaultScoringConfig BASE_WEIGHTS Phase.enriched).1
      ("email_domain", 15) (by decide),
   (breakdown_entries_unweighted_nonzero
      { company_domain := "b.com", contact_email := some "a@b.com" }
      getDefaultScoringConfig BASE_WEIGHTS Phase.enriched).2 rfl
      ("email_domain", 15) (by decide)⟩

lemma scoreRegion_triggered (input : UniversalLeadInput) (ex : List String) (phase : Phase)
    (r : String) (hne : ex ≠ []) (hr : regionOf input = some r) (hrne : r ≠ "")
    (hm : ex.any (fun er => jsIncludes (jsToLower r) (jsToLower er)) = true) :
    scoreRegion input ex phase =
      (-20, if phase == Phase.enriched
        then ["Excluded region: " ++ r ++ " (-20)"] else []) := by
  have hie : ex.isEmpty = false := by
    cases hc : ex
    · exact absurd hc hne
    · rfl
  unfold scoreRegion
  rw [hr]
  simp [hie, hrne, hm]

/-- Claim C5 (counterexample): with excluded_regions = [""] and a present but
empty company_region (the spec distinguishes absence from the empty string,
and "" substring-matches the entry ""), no region_penalty entry is produced:
the JS truthiness chain treats the empty region as absent. -/
theorem region_penalty_empty_string_missing :
    bdLookup (computeScore
      { company_domain := "x.com", company_region := some "" }
      { getDefaultScoringConfig with excluded_regions := [""] }
      (mergeWeights { }) Phase.enriched).breakdown "region_penalty" = none ∧
    jsIncludes (jsToLower "") (jsToLower "") = true := by
  constructor <;> decide

/-- Claim C5 (amended): whenever the region selected by JS truthiness
(company_region if present and non-empty, else contact_geo) is present,
non-empty and case-insensitively substring-matches an entry of the non-empty
excluded_regions list, the phase's breakdown records region_penalty = −20 —
unaffected by any weight map — and the enriched pass emits the corresponding
"Excluded region" reason. -/
theorem region_penalty_recorded (input : UniversalLeadInput)
    (config : TenantScoringConfig) (weights : Weights) (phase : Phase) (r : String)
    (hne : config.excluded_regions ≠ []) (hr : regionOf input = some r) (hrne : r ≠ "")
    (hm : config.excluded_regions.any
      (fun er => jsIncludes (jsToLower r) (jsToLower er)) = true) :
    bdLookup (computeScore input config weights phase).breakdown "region_penalty" =
      some (-20) ∧
    (phase = Phase.enriched →
      ("Excluded region: " ++ r ++ " (-20)") ∈
        (computeScore input config weights phase).reasons) := by
  have hsr := scoreRegion_triggered input config.excluded_regions phase r hne hr hrne hm
  constructor
  · unfold computeScore
    dsimp only
    rw [hsr]
    dsimp only
    unfold addNeg
    rw [if_pos (by norm_num : (-20 : Int) < 0)]
    refine bdLookup_append_of_fresh _ _ _ ?_
    intro q hq
    rcases addPos_mem _ _ _ _ _ hq with hq | ⟨_, rfl⟩
    rotate_left
    · simp
    rcases addPos_mem _ _ _ _ _ hq with hq | ⟨_, rfl⟩
    rotate_left
    · simp
    rcases addPos_mem _ _ _ _ _ hq with hq | ⟨_, rfl⟩
    rotate_left
    · simp
    rcases addPos_mem _ _ _ _ _ hq with hq | ⟨_, rfl⟩
    rotate_left
    · simp
    rcases addNonzero_mem _ _ _ _ _ hq with hq | ⟨_, rfl⟩
    rotate_left
    · simp
    rcases addPos_mem _ _ _ _ _ hq with hq | ⟨_, rfl⟩
    rotate_left
    · simp
    rcases addPos_mem _ _ _ _ _ hq with hq | ⟨_, rfl⟩
    rotate_left
    · simp
    rcases addPos_mem _ _ _ _ _ hq with hq | ⟨_, rfl⟩
    rotate_left
    · simp
    rcases addPos_mem _ _ _ _ _ hq with hq | ⟨_, rfl⟩
    rotate_left
    · simp
    simp at hq
  · intro hph
    subst hph
    unfold computeScore
    dsimp only
    rw [hsr]
    simp

/-- Claim C5 (amended, witness): a concrete record in region "Russia" with
tenant exclusion "russia" produces the −20 breakdown entry and the reason. -/
theorem region_penalty_recorded_witness :
    bdLookup (computeScore { company_domain := "x.com", company_region := some "Russia" }
      { getDefaultScoringConfig with excluded_regions := ["russia"] }
      (mergeWeights { }) Phase.enriched).breakdown "region_penalty" = some (-20) ∧
    ("Excluded region: " ++ "Russia" ++ " (-20)") ∈
      (computeScore { company_domain := "x.com", company_region := some "Russia" }
        { getDefaultScoringConfig with excluded_regions := ["russia"] }
        (mergeWeights { }) Phase.enriched).reasons :=
  ⟨(region_penalty_recorded _ _ _ _ "Russia" (by decide) (by decide) (by decide) (by decide)).1,
   (region_penalty_recorded _ _ _ _ "Russia" (by decide) (by decide) (by decide)
      (by decide)).2 rfl⟩
